import Mathlib

/-!
Verification development for the `ros1_ign_point_cloud` plugin
(`src/ros1_ign_point_cloud/src/point_cloud.cc`).

The plugin converts depth frames from an Ignition rendering depth camera
into ROS `sensor_msgs::PointCloud2` messages.  We give a shallow embedding
of its two stateful entry points:

* `PointCloudPrivate::OnNewDepthFrame` (the hot path that builds and
  publishes a cloud) is embedded as the pure function `onNewDepthFrame`
  over rationals; per-point floating-point geometry (which uses `tan` and
  `atan2`) is embedded separately over the reals as `emittedPoint`.
* `PointCloud::PostUpdate` together with `LoadDepthCamera` / `LoadRgbCamera`
  is embedded as a step function `postUpdate` on an explicit plugin state,
  with an abstract environment standing for the rendering scene; effect
  counters record engine/scene lookups, resolution attempts, error logs and
  depth-frame subscriptions.

C++ `float`/`double` values are idealised as `ℚ` (where only comparisons
and exact copies occur) and `ℝ` (for trigonometry); IEEE infinities are
made explicit with the `ZVal` type.  C++ `size_t` arithmetic in the scoped
name derivation (`std::string::find` / `substr`) is modelled exactly,
including the `npos + 2` wrap-around modulo `2^64` and `substr`'s
`out_of_range` exception.
-/

/-- The value stored in a point's `z` field: an IEEE `±∞` or a finite value. -/
inductive ZVal
  | posInf
  | negInf
  | fin (q : ℚ)
deriving DecidableEq

/-- Final content of `*iter_z` for one pixel, translated from the clip test

```
if (depth > this->depth_camera_->FarClipPlane())
{ *iter_z = ignition::math::INF_D; msg.is_dense = false; }
if (depth < this->depth_camera_->NearClipPlane())
{ *iter_z = -ignition::math::INF_D; msg.is_dense = false; }
else
{ *iter_z = depth; }
```

The slot starts at `0` (the data buffer is zero-filled by `resize`); the
first `if` may store `+∞`; the second `if`/`else` then stores `-∞` or the
raw depth.  Note the `else` belongs to the *near* test, so the second
statement always overwrites the slot: the `+∞` store is dead. -/
def clipZ (near far d : ℚ) : ZVal :=
  let z : ZVal := ZVal.fin 0
  let z : ZVal := if far < d then ZVal.posInf else z
  let z : ZVal := if d < near then ZVal.negInf else ZVal.fin d
  z

/-- Whether the clip test for one pixel executes a `msg.is_dense = false`
assignment: it does so in the far branch and in the near branch. -/
def clipsDense (near far d : ℚ) : Bool :=
  decide (far < d) || decide (d < near)

/-- Per-pixel colour sampling, translated from

```
if (this->rgb_image_msg_.data.size() == _height * _width * 3)
{ *iter_r = image_src[i*3+j*_width*3+0]; ... }
else if (this->rgb_image_msg_.data.size() == _height*_width)
{ *iter_r = image_src[i+j*_width]; ... }
else
{ *iter_r = 0; *iter_g = 0; *iter_b = 0; }
```

`data` is the RGB message buffer `rgb_image_msg_.data`; reads through
`image_src` are modelled with `List.getD` (they are in bounds whenever the
tested size equation holds, see the safety theorem). -/
def sampleColor (data : List ℕ) (W H i j : ℕ) : ℕ × ℕ × ℕ :=
  if data.length = H * W * 3 then
    (data.getD (i * 3 + j * W * 3 + 0) 0,
     data.getD (i * 3 + j * W * 3 + 1) 0,
     data.getD (i * 3 + j * W * 3 + 2) 0)
  else if data.length = H * W then
    (data.getD (i + j * W) 0, data.getD (i + j * W) 0, data.getD (i + j * W) 0)
  else
    (0, 0, 0)

/-- The offsets read through `image_src` for the point at pixel `(i, j)`,
given the tested buffer length `L`: the three subscripts
`i*3+j*_width*3+{0,1,2}` in the colour branch, the single subscript
`i+j*_width` in the mono branch, and none in the no-image branch. -/
def colorReadOffsets (L W H i j : ℕ) : List ℕ :=
  if L = H * W * 3 then
    [i * 3 + j * W * 3 + 0, i * 3 + j * W * 3 + 1, i * 3 + j * W * 3 + 2]
  else if L = H * W then
    [i + j * W]
  else
    []

/-- The unconditional base-pointer formation
`uint8_t * image_src = (uint8_t *)(&(this->rgb_image_msg_.data[0]));`
modelled as a read of element 0 of the buffer. -/
def imageSrcRead (data : List ℕ) : Option ℕ :=
  data[0]?

/-- The portion of one emitted point that the builder computes without
floating-point trigonometry: `z` and the three colour bytes. -/
structure PointQ where
  z : ZVal
  r : ℕ
  g : ℕ
  b : ℕ
deriving DecidableEq

instance : Inhabited PointQ := ⟨{ z := ZVal.fin 0, r := 0, g := 0, b := 0 }⟩

/-- One loop iteration's writes for pixel `(i, j)` with raw depth `d`
(`z` and colour; the `x`/`y` fields are embedded over `ℝ` in
`emittedPoint`). -/
def mkPoint (near far : ℚ) (rgbData : List ℕ) (W H i j : ℕ) (d : ℚ) : PointQ :=
  { z := clipZ near far d,
    r := (sampleColor rgbData W H i j).1,
    g := (sampleColor rgbData W H i j).2.1,
    b := (sampleColor rgbData W H i j).2.2 }

/-- The points written by the double loop
`for (j = 0; j < _height; ++j) for (i = 0; i < _width; ++i)`, in iterator
order; the depth read is `_scan[index++]` with `index = j*_width + i`. -/
def cloudPoints (near far : ℚ) (rgbData : List ℕ) (W H : ℕ) (depths : List ℚ) :
    List PointQ :=
  (List.range H).flatMap fun j =>
    (List.range W).map fun i =>
      mkPoint near far rgbData W H i j (depths.getD (j * W + i) 0)

/-- Final value of `msg.is_dense`: initialised `true`, assigned `false` by
any pixel whose clip test fires. -/
def cloudDense (near far : ℚ) (W H : ℕ) (depths : List ℚ) : Bool :=
  (List.range H).all fun j =>
    (List.range W).all fun i =>
      !clipsDense near far (depths.getD (j * W + i) 0)

/-- `point_step` of the middleware's standard `"xyz"`+`"rgb"` preset
installed by `setPointCloud2FieldsByString(2, "xyz", "rgb")`:
x, y, z as FLOAT32 (12 bytes) plus 4 bytes padding, rgb packed in a
FLOAT32 (4 bytes) plus 12 bytes padding. -/
def xyzrgbPointStep : ℕ := 32

/-- The fields of the published `sensor_msgs::PointCloud2` that the claims
are about (the per-point payload is kept as a `List PointQ`, `dataLen` is
`data.size()`). -/
structure CloudMsg where
  width : ℕ
  height : ℕ
  point_step : ℕ
  row_step : ℕ
  is_dense : Bool
  dataLen : ℕ
  points : List PointQ
deriving DecidableEq

/-- Message construction, translated from `OnNewDepthFrame` lines 259-355:

```
sensor_msgs::PointCloud2 msg;            // point_step default-initialised to 0
msg.width = _width;
msg.height = _height;
msg.row_step = msg.point_step * _width;  // = 0 at this point
msg.is_dense = true;
sensor_msgs::PointCloud2Modifier modifier(msg);
modifier.setPointCloud2FieldsByString(2, "xyz", "rgb");
modifier.resize(_width*_height);
// ... conversion loop ...
```

The two `PointCloud2Modifier` calls are middleware library calls (an
external collaborator); they are modelled by their interface contract:
`setPointCloud2FieldsByString` installs the preset layout, setting
`point_step`, recomputing `row_step = width * point_step` and sizing
`data` to `height * row_step`; `resize(n)` sizes `data` to
`n * point_step`. -/
def buildMsg (near far : ℚ) (rgbData : List ℕ) (W H : ℕ) (depths : List ℚ) :
    CloudMsg :=
  let point_step : ℕ := 0
  let row_step : ℕ := point_step * W
  let point_step : ℕ := xyzrgbPointStep
  let row_step : ℕ := W * point_step
  let dataLen : ℕ := H * row_step
  let dataLen : ℕ := W * H * point_step
  { width := W,
    height := H,
    point_step := point_step,
    row_step := row_step,
    is_dense := cloudDense near far W H depths,
    dataLen := dataLen,
    points := cloudPoints near far rgbData W H depths }

/-- Observable effect of one depth-frame callback invocation: the message
handed to `pc_pub_.publish` (if any) and whether `rgb_camera_->Capture`
ran (the only mutation of the shared RGB buffers). -/
structure FrameResult where
  published : Option CloudMsg
  rgbCaptured : Bool
deriving DecidableEq

/-- `PointCloudPrivate::OnNewDepthFrame`, with `subs` the publisher's
subscriber count, `hasRgbCamera` whether `rgb_camera_` is non-null, and
`rgbData` the content of `rgb_image_msg_.data` as seen by the conversion
loop (after `Capture`/`fillImage` when `hasRgbCamera`).  Gate:

```
if (this->pc_pub_.getNumSubscribers() <= 0 || _height == 0 || _width == 0)
  return;
```

(The channel/format checks that follow only log warnings and do not affect
the message.) -/
def onNewDepthFrame (subs W H : ℕ) (depths : List ℚ) (rgbData : List ℕ)
    (near far : ℚ) (hasRgbCamera : Bool) : FrameResult :=
  if subs = 0 ∨ H = 0 ∨ W = 0 then
    { published := none, rgbCaptured := false }
  else
    { published := some (buildMsg near far rgbData W H depths),
      rgbCaptured := hasRgbCamera }

/-- C library `atan2` over idealised reals (signed zeros and NaN have no
counterpart in `ℝ`): the angle of the point `(x, y)` in `(-π, π]`. -/
noncomputable def atan2 (y x : ℝ) : ℝ :=
  if 0 < x then Real.arctan (y / x)
  else if x < 0 ∧ 0 ≤ y then Real.arctan (y / x) + Real.pi
  else if x < 0 ∧ y < 0 then Real.arctan (y / x) - Real.pi
  else if x = 0 ∧ 0 < y then Real.pi / 2
  else if x = 0 ∧ y < 0 then -(Real.pi / 2)
  else 0

/-- `double fl = _width / (2.0 * tan(hfov / 2.0));` (computed once per
frame from `depth_camera_->HFOV().Radian()`). -/
noncomputable def focalLength (W : ℕ) (hfov : ℝ) : ℝ :=
  (W : ℝ) / (2 * Real.tan (hfov / 2))

/-- Per-row pitch angle, translated from
`if (_height>1) p_angle = atan2((double)j - 0.5*(double)(_height-1), fl);
else p_angle = 0.0;`.  The C++ subtraction `_height-1` is on `unsigned`
with `_height ≥ 1` on every executed path, so `ℕ` subtraction agrees. -/
noncomputable def p_angle (H : ℕ) (fl : ℝ) (j : ℕ) : ℝ :=
  if 1 < H then atan2 ((j : ℝ) - 0.5 * ((H - 1 : ℕ) : ℝ)) fl else 0

/-- Per-column yaw angle, translated from
`if (_width>1) y_angle = atan2((double)i - 0.5*(double)(_width-1), fl);
else y_angle = 0.0;`. -/
noncomputable def y_angle (W : ℕ) (fl : ℝ) (i : ℕ) : ℝ :=
  if 1 < W then atan2 ((i : ℝ) - 0.5 * ((W - 1 : ℕ) : ℝ)) fl else 0

/-- One emitted point with its floating-point geometry, translated from the
loop body: `*iter_x = depth * tan(y_angle); *iter_y = depth * tan(p_angle);`
followed by the clip test and colour sampling.  `d` is the raw depth
`_scan[j*_width + i]`. -/
structure FullPoint where
  x : ℝ
  y : ℝ
  z : ZVal
  r : ℕ
  g : ℕ
  b : ℕ

noncomputable def emittedPoint (near far : ℚ) (hfov : ℝ) (rgbData : List ℕ)
    (W H i j : ℕ) (d : ℚ) : FullPoint :=
  { x := (d : ℝ) * Real.tan (y_angle W (focalLength W hfov) i),
    y := (d : ℝ) * Real.tan (p_angle H (focalLength W hfov) j),
    z := clipZ near far d,
    r := (sampleColor rgbData W H i j).1,
    g := (sampleColor rgbData W H i j).2.1,
    b := (sampleColor rgbData W H i j).2.2 }

/-- Focal length exactly as the specification words it:
`fl = W / (2·tan(θ/2))`. -/
noncomputable def focalLengthSpec (W : ℕ) (θ : ℝ) : ℝ :=
  (W : ℝ) / (2 * Real.tan (θ / 2))

/-- Pitch angle exactly as the specification words it: when `H > 1`,
`p_angle(j) = atan2(j − 0.5·(H−1), fl)`; when `H == 1`, `p_angle = 0`. -/
noncomputable def p_angleSpec (H : ℕ) (fl : ℝ) (j : ℕ) : ℝ :=
  if H > 1 then atan2 ((j : ℝ) - 0.5 * ((H - 1 : ℕ) : ℝ)) fl else 0

/-- Yaw angle exactly as the specification words it: when `W > 1`,
`y_angle(i) = atan2(i − 0.5·(W−1), fl)`; when `W == 1`, `y_angle = 0`. -/
noncomputable def y_angleSpec (W : ℕ) (fl : ℝ) (i : ℕ) : ℝ :=
  if W > 1 then atan2 ((i : ℝ) - 0.5 * ((W - 1 : ℕ) : ℝ)) fl else 0

/-! ### Scoped-name derivation

`LoadDepthCamera` / `LoadRgbCamera` derive the rendering-sensor lookup name
from the sensor's scoped name (separator `"::"`):

```
sensor_name = sensor_name.substr(sensor_name.find("::") + 2) + "_depth";   // depth
sensor_name = sensor_name.substr(sensor_name.find("::") + 2);              // rgb
```

`std::string::find` returns `npos = 2^64 - 1` when absent; `npos + 2`
wraps to `1` in `size_t` arithmetic; `substr(pos)` throws
`std::out_of_range` when `pos > size()`.  Strings are `List Char`. -/

deriving instance DecidableEq for Except

/-- `std::string::npos` for a 64-bit `size_t`. -/
def NPOS : ℕ := 2 ^ 64 - 1

/-- Helper for `cppFind`: index (counting from `i`) of the first position
of `s` at which `pat` is a prefix, or `NPOS`. -/
def cppFindGo (pat : List Char) : List Char → ℕ → ℕ
  | [], i => if pat = [] then i else NPOS
  | c :: rest, i =>
      if pat.isPrefixOf (c :: rest) then i else cppFindGo pat rest (i + 1)

/-- `s.find(pat)`: index of the first occurrence of `pat` in `s`, or
`NPOS`. -/
def cppFind (s pat : List Char) : ℕ :=
  cppFindGo pat s 0

/-- `s.substr(pos)`: suffix from `pos`, or `out_of_range` when
`pos > s.size()`. -/
def cppSubstr (s : List Char) (pos : ℕ) : Except Unit (List Char) :=
  if pos ≤ s.length then Except.ok (s.drop pos) else Except.error ()

/-- The separator used by `scopedName(entity_, _ecm, "::", false)`. -/
def sepColons : List Char := [':', ':']

/-- The `"_depth"` suffix appended for the depth-camera lookup. -/
def depthSuffix : List Char := ['_', 'd', 'e', 'p', 't', 'h']

/-- Depth-camera lookup name from the scoped name `s` (`LoadDepthCamera`):
`s.substr(s.find("::") + 2) + "_depth"`, with the `size_t` wrap of
`find`'s result made explicit. -/
def depthLookupName (s : List Char) : Except Unit (List Char) :=
  match cppSubstr s ((cppFind s sepColons + 2) % 2 ^ 64) with
  | Except.ok t => Except.ok (t ++ depthSuffix)
  | Except.error e => Except.error e

/-- RGB-camera lookup name from the scoped name `s` (`LoadRgbCamera`):
`s.substr(s.find("::") + 2)`. -/
def rgbLookupName (s : List Char) : Except Unit (List Char) :=
  cppSubstr s ((cppFind s sepColons + 2) % 2 ^ 64)

/-! ### PostUpdate / camera resolution state machine -/

/-- Capabilities of a rendering sensor found by `Scene::SensorByName`:
whether `dynamic_pointer_cast` to `rendering::DepthCamera` resp.
`rendering::Camera` succeeds. -/
structure SensorCaps where
  isDepthCamera : Bool
  isRgbCamera : Bool

/-- One tick's view of the external rendering subsystem:
`ignition::rendering::engine(engine_name_)` success,
`engine->SceneByName(scene_name_)` success, and
`scene_->SensorByName(name)` lookup. -/
structure Env where
  engineFound : Bool
  sceneFound : Bool
  sensorAt : List Char → Option SensorCaps

/-- Plugin state across post-update ticks.  `scene`, `depth_camera` and
`rgb_camera` model the null-ness of `scene_`, `depth_camera_` and
`rgb_camera_`.  The counters record observable effects: rendering-engine
lookups, `SceneByName` lookups, entries into `LoadDepthCamera` /
`LoadRgbCamera` that reach `SensorByName`, `ROS_ERROR` logs from failed
casts, and `ConnectNewDepthFrame` subscriptions.  `threw` records an
escaped `std::out_of_range` from `substr` on an empty scoped name. -/
structure PluginState where
  scene : Bool
  depth_camera : Bool
  rgb_camera : Bool
  engineLookups : ℕ
  sceneLookups : ℕ
  depthResolveAttempts : ℕ
  rgbResolveAttempts : ℕ
  depthCastErrors : ℕ
  rgbCastErrors : ℕ
  subscribeCount : ℕ
  threw : Bool
deriving DecidableEq

/-- `PointCloudPrivate::LoadDepthCamera`: derive the lookup name, ask the
scene for the sensor (return if absent), cast to `DepthCamera` (log an
error and return if the cast fails), else store the handle and register
the depth-frame callback via `ConnectNewDepthFrame`. -/
def loadDepthCamera (env : Env) (scopedName : List Char) (s : PluginState) :
    PluginState :=
  match depthLookupName scopedName with
  | Except.error _ => { s with threw := true }
  | Except.ok lookup =>
    let s := { s with depthResolveAttempts := s.depthResolveAttempts + 1 }
    match env.sensorAt lookup with
    | none => s
    | some caps =>
      if caps.isDepthCamera then
        { s with depth_camera := true, subscribeCount := s.subscribeCount + 1 }
      else
        { s with depthCastErrors := s.depthCastErrors + 1 }

/-- `PointCloudPrivate::LoadRgbCamera`: same shape as the depth case, no
suffix on the lookup name, cast to `rendering::Camera`, no subscription
(on success it only allocates the reusable image via `CreateImage`). -/
def loadRgbCamera (env : Env) (scopedName : List Char) (s : PluginState) :
    PluginState :=
  match rgbLookupName scopedName with
  | Except.error _ => { s with threw := true }
  | Except.ok lookup =>
    let s := { s with rgbResolveAttempts := s.rgbResolveAttempts + 1 }
    match env.sensorAt lookup with
    | none => s
    | some caps =>
      if caps.isRgbCamera then
        { s with rgb_camera := true }
      else
        { s with rgbCastErrors := s.rgbCastErrors + 1 }

/-- The camera-loading tail of `PostUpdate`:

```
if (!this->dataPtr->depth_camera_) { this->dataPtr->LoadDepthCamera(_ecm); }
if (!this->dataPtr->rgb_camera_)   { this->dataPtr->LoadRgbCamera(_ecm); }
```

An exception escaping `LoadDepthCamera` (modelled by `threw`) skips the
RGB load. -/
def loadCameras (env : Env) (scopedName : List Char) (s : PluginState) :
    PluginState :=
  let s1 := if s.depth_camera then s else loadDepthCamera env scopedName s
  if s1.threw then s1
  else if s1.rgb_camera then s1
  else loadRgbCamera env scopedName s1

/-- `PointCloud::PostUpdate` (one tick): if `scene_` is null, look up the
engine (return if absent), then the scene (return if absent, else cache
it); with a scene in hand, run the camera loads. -/
def postUpdate (env : Env) (scopedName : List Char) (s : PluginState) :
    PluginState :=
  if s.scene then loadCameras env scopedName s
  else
    let s := { s with engineLookups := s.engineLookups + 1 }
    if env.engineFound = false then s
    else
      let s := { s with sceneLookups := s.sceneLookups + 1 }
      if env.sceneFound = false then s
      else loadCameras env scopedName { s with scene := true }

/-- A sequence of post-update ticks, one environment per tick. -/
def postUpdates (envs : List Env) (scopedName : List Char) (s : PluginState) :
    PluginState :=
  match envs with
  | [] => s
  | e :: rest => postUpdates rest scopedName (postUpdate e scopedName s)

/-- The plugin state right after `Configure` (all handles null, no effects
yet). -/
def initState : PluginState :=
  { scene := false, depth_camera := false, rgb_camera := false,
    engineLookups := 0, sceneLookups := 0,
    depthResolveAttempts := 0, rgbResolveAttempts := 0,
    depthCastErrors := 0, rgbCastErrors := 0,
    subscribeCount := 0, threw := false }

/-! ### Helper lemmas -/

/-- The `z`/colour projection of `emittedPoint` is `mkPoint`: the two
per-pixel embeddings agree on the non-trigonometric fields. -/
lemma mkPoint_eq_emittedPoint (near far : ℚ) (hfov : ℝ) (rgbData : List ℕ)
    (W H i j : ℕ) (d : ℚ) :
    mkPoint near far rgbData W H i j d
      = { z := (emittedPoint near far hfov rgbData W H i j d).z,
          r := (emittedPoint near far hfov rgbData W H i j d).r,
          g := (emittedPoint near far hfov rgbData W H i j d).g,
          b := (emittedPoint near far hfov rgbData W H i j d).b } := rfl

lemma getD_flatMap_grid {α : Type} (d : α) (g : ℕ → ℕ → α) (W : ℕ) :
    ∀ (L : List ℕ) (j i : ℕ), j < L.length → i < W →
      ((L.flatMap fun y => (List.range W).map fun x => g x y).getD (j * W + i) d)
        = g i (L.getD j 0) := by
  intro L
  induction L with
  | nil => intro j i hj hi; simp at hj
  | cons a rest ih =>
    intro j i hj hi
    rw [List.flatMap_cons]
    cases j with
    | zero =>
      rw [Nat.zero_mul, Nat.zero_add,
        List.getD_append _ _ _ _ (by simpa using hi),
        List.getD_eq_getElem _ _ (by simpa using hi)]
      simp
    | succ j' =>
      have hkey : (j' + 1) * W + i
          = ((List.range W).map fun x => g x a).length + (j' * W + i) := by
        simp [Nat.succ_mul]; ring
      rw [hkey, List.getD_append_right _ _ _ _ (Nat.le_add_right _ _),
        Nat.add_sub_cancel_left, List.getD_cons_succ]
      exact ih j' i (by simpa using hj) hi

lemma length_flatMap_grid {α : Type} (g : ℕ → ℕ → α) (W : ℕ) :
    ∀ L : List ℕ, (L.flatMap fun y => (List.range W).map fun x => g x y).length
      = L.length * W := by
  intro L
  induction L with
  | nil => simp
  | cons a rest ih =>
    rw [List.flatMap_cons, List.length_append, ih]
    simp [Nat.succ_mul]
    ring

/-- Indexing the loop output at pixel `(i, j)` yields the point built for
that pixel from the raw depth `_scan[j*_width + i]`. -/
lemma getD_cloudPoints (near far : ℚ) (rgbData : List ℕ) (W H i j : ℕ)
    (depths : List ℚ) (hi : i < W) (hj : j < H) :
    (cloudPoints near far rgbData W H depths).getD (j * W + i) default
      = mkPoint near far rgbData W H i j (depths.getD (j * W + i) 0) := by
  unfold cloudPoints
  have h := getD_flatMap_grid (default : PointQ)
    (fun x y => mkPoint near far rgbData W H x y (depths.getD (y * W + x) 0)) W
    (List.range H) j i (by simpa using hj) hi
  rw [h, List.getD_eq_getElem _ _ (by simpa using hj)]
  simp

lemma length_cloudPoints (near far : ℚ) (rgbData : List ℕ) (W H : ℕ)
    (depths : List ℚ) :
    (cloudPoints near far rgbData W H depths).length = H * W := by
  unfold cloudPoints
  rw [length_flatMap_grid]
  simp

lemma cppFindGo_found (pat : List Char) :
    ∀ (s : List Char) (i k : ℕ), k ≤ s.length →
      pat.isPrefixOf (s.drop k) = true →
      (∀ m, m < k → pat.isPrefixOf (s.drop m) = false) →
      cppFindGo pat s i = i + k := by
  intro s
  induction s with
  | nil =>
    intro i k hk hpre _
    have hk0 : k = 0 := by simpa using hk
    subst hk0
    simp only [List.drop_nil] at hpre
    have hpat : pat = [] := by simpa using hpre
    simp [cppFindGo, hpat]
  | cons c rest ih =>
    intro i k hk hpre hmin
    cases k with
    | zero =>
      rw [List.drop_zero] at hpre
      simp [cppFindGo, hpre]
    | succ k' =>
      have h0 : pat.isPrefixOf (c :: rest) = false := by
        have := hmin 0 (Nat.succ_pos _)
        simpa using this
      rw [cppFindGo, h0]
      simp only [Bool.false_eq_true, if_false]
      have := ih (i + 1) k' (by simpa using hk)
        (by simpa [List.drop_succ_cons] using hpre)
        (fun m hm => by simpa [List.drop_succ_cons] using hmin (m + 1) (by omega))
      rw [this]
      omega

lemma cppFindGo_none (pat : List Char) (hpat : pat ≠ []) :
    ∀ (s : List Char) (i : ℕ),
      (∀ m, pat.isPrefixOf (s.drop m) = false) →
      cppFindGo pat s i = NPOS := by
  intro s
  induction s with
  | nil => intro i _; simp [cppFindGo, hpat]
  | cons c rest ih =>
    intro i hall
    have h0 : pat.isPrefixOf (c :: rest) = false := by simpa using hall 0
    rw [cppFindGo, h0]
    simp only [Bool.false_eq_true, if_false]
    exact ih (i + 1) (fun m => by simpa [List.drop_succ_cons] using hall (m + 1))

/-- `find` returns the index of the first occurrence. -/
lemma cppFind_found (s pat : List Char) (k : ℕ) (hk : k ≤ s.length)
    (hpre : pat.isPrefixOf (s.drop k) = true)
    (hmin : ∀ m, m < k → pat.isPrefixOf (s.drop m) = false) :
    cppFind s pat = k := by
  rw [cppFind, cppFindGo_found pat s 0 k hk hpre hmin]
  omega

/-- `find` returns `npos` when the pattern does not occur. -/
lemma cppFind_none (s pat : List Char) (hpat : pat ≠ [])
    (hall : ∀ m, pat.isPrefixOf (s.drop m) = false) :
    cppFind s pat = NPOS := cppFindGo_none pat hpat s 0 hall

/-- The `size_t` wrap: `npos + 2` is index `1`. -/
lemma npos_wrap : (NPOS + 2) % 2 ^ 64 = 1 := by decide

/-- `LoadDepthCamera` leaves the scene handle, engine/scene lookup counts
and all RGB-side state untouched. -/
lemma loadDepthCamera_frame (env : Env) (n : List Char) (s : PluginState) :
    (loadDepthCamera env n s).scene = s.scene ∧
    (loadDepthCamera env n s).engineLookups = s.engineLookups ∧
    (loadDepthCamera env n s).sceneLookups = s.sceneLookups ∧
    (loadDepthCamera env n s).rgb_camera = s.rgb_camera ∧
    (loadDepthCamera env n s).rgbResolveAttempts = s.rgbResolveAttempts ∧
    (loadDepthCamera env n s).rgbCastErrors = s.rgbCastErrors := by
  unfold loadDepthCamera
  rcases h : depthLookupName n with e | t
  · simp
  · simp only []
    rcases hs : env.sensorAt t with _ | caps
    · simp
    · by_cases hc : caps.isDepthCamera <;> simp [hc]

/-- `LoadRgbCamera` leaves the scene handle, engine/scene lookup counts and
all depth-side state (in particular the subscription count) untouched. -/
lemma loadRgbCamera_frame (env : Env) (n : List Char) (s : PluginState) :
    (loadRgbCamera env n s).scene = s.scene ∧
    (loadRgbCamera env n s).engineLookups = s.engineLookups ∧
    (loadRgbCamera env n s).sceneLookups = s.sceneLookups ∧
    (loadRgbCamera env n s).depth_camera = s.depth_camera ∧
    (loadRgbCamera env n s).depthResolveAttempts = s.depthResolveAttempts ∧
    (loadRgbCamera env n s).depthCastErrors = s.depthCastErrors ∧
    (loadRgbCamera env n s).subscribeCount = s.subscribeCount := by
  unfold loadRgbCamera
  rcases h : rgbLookupName n with e | t
  · simp
  · simp only []
    rcases hs : env.sensorAt t with _ | caps
    · simp
    · by_cases hc : caps.isRgbCamera <;> simp [hc]

/-- The camera-loading tail preserves the scene handle and the engine/scene
lookup counts. -/
lemma loadCameras_frame (env : Env) (n : List Char) (s : PluginState) :
    (loadCameras env n s).scene = s.scene ∧
    (loadCameras env n s).engineLookups = s.engineLookups ∧
    (loadCameras env n s).sceneLookups = s.sceneLookups := by
  rw [loadCameras]
  have hd := loadDepthCamera_frame env n s
  set s1 := if s.depth_camera then s else loadDepthCamera env n s with hs1
  have h1 : s1.scene = s.scene ∧ s1.engineLookups = s.engineLookups ∧
      s1.sceneLookups = s.sceneLookups := by
    rw [hs1]
    by_cases hdc : s.depth_camera = true
    · rw [if_pos hdc]; exact ⟨rfl, rfl, rfl⟩
    · rw [if_neg hdc]; exact ⟨hd.1, hd.2.1, hd.2.2.1⟩
  have hr := loadRgbCamera_frame env n s1
  by_cases ht : s1.threw = true
  · rw [if_pos ht]; exact h1
  · rw [if_neg ht]
    by_cases hrc : s1.rgb_camera = true
    · rw [if_pos hrc]; exact h1
    · rw [if_neg hrc]
      exact ⟨hr.1.trans h1.1, hr.2.1.trans h1.2.1, hr.2.2.1.trans h1.2.2⟩

/-- With the scene handle already cached, one `PostUpdate` tick keeps it and
performs no engine or scene lookup. -/
lemma postUpdate_scene_inv (env : Env) (n : List Char) (s : PluginState)
    (h : s.scene = true) :
    (postUpdate env n s).scene = true ∧
    (postUpdate env n s).engineLookups = s.engineLookups ∧
    (postUpdate env n s).sceneLookups = s.sceneLookups := by
  rw [postUpdate, if_pos h]
  have hf := loadCameras_frame env n s
  exact ⟨hf.1.trans h, hf.2.1, hf.2.2⟩

/-- The camera-loading tail with the depth camera already resolved keeps it
resolved and leaves the whole depth side (attempt/error counters and the
subscription count) untouched. -/
lemma loadCameras_depth_inv (env : Env) (n : List Char) (s : PluginState)
    (h : s.depth_camera = true) :
    (loadCameras env n s).depth_camera = true ∧
    (loadCameras env n s).subscribeCount = s.subscribeCount ∧
    (loadCameras env n s).depthResolveAttempts = s.depthResolveAttempts ∧
    (loadCameras env n s).depthCastErrors = s.depthCastErrors := by
  rw [loadCameras, if_pos h]
  have hr := loadRgbCamera_frame env n s
  by_cases ht : s.threw = true
  · rw [if_pos ht]; exact ⟨h, rfl, rfl, rfl⟩
  · rw [if_neg ht]
    by_cases hrc : s.rgb_camera = true
    · rw [if_pos hrc]; exact ⟨h, rfl, rfl, rfl⟩
    · rw [if_neg hrc]
      exact ⟨hr.2.2.2.1.trans h, hr.2.2.2.2.2.2, hr.2.2.2.2.1, hr.2.2.2.2.2.1⟩

/-- One `PostUpdate` tick with the depth camera already resolved never
re-resolves it and never re-subscribes. -/
lemma postUpdate_depth_inv (env : Env) (n : List Char) (s : PluginState)
    (h : s.depth_camera = true) :
    (postUpdate env n s).depth_camera = true ∧
    (postUpdate env n s).subscribeCount = s.subscribeCount ∧
    (postUpdate env n s).depthResolveAttempts = s.depthResolveAttempts ∧
    (postUpdate env n s).depthCastErrors = s.depthCastErrors := by
  rw [postUpdate]
  by_cases hsc : s.scene = true
  · rw [if_pos hsc]; exact loadCameras_depth_inv env n s h
  · rw [if_neg hsc]
    by_cases he : env.engineFound = false
    · rw [if_pos he]; exact ⟨h, rfl, rfl, rfl⟩
    · rw [if_neg he]
      by_cases hs : env.sceneFound = false
      · rw [if_pos hs]; exact ⟨h, rfl, rfl, rfl⟩
      · rw [if_neg hs]; exact loadCameras_depth_inv env n _ h

/-- The camera-loading tail with the RGB camera already resolved keeps it
resolved and leaves the RGB attempt/error counters untouched. -/
lemma loadCameras_rgb_inv (env : Env) (n : List Char) (s : PluginState)
    (h : s.rgb_camera = true) :
    (loadCameras env n s).rgb_camera = true ∧
    (loadCameras env n s).rgbResolveAttempts = s.rgbResolveAttempts ∧
    (loadCameras env n s).rgbCastErrors = s.rgbCastErrors := by
  rw [loadCameras]
  have hd := loadDepthCamera_frame env n s
  set s1 := if s.depth_camera then s else loadDepthCamera env n s with hs1
  have h1 : s1.rgb_camera = true ∧ s1.rgbResolveAttempts = s.rgbResolveAttempts ∧
      s1.rgbCastErrors = s.rgbCastErrors := by
    rw [hs1]
    by_cases hdc : s.depth_camera = true
    · rw [if_pos hdc]; exact ⟨h, rfl, rfl⟩
    · rw [if_neg hdc]; exact ⟨hd.2.2.2.1.trans h, hd.2.2.2.2.1, hd.2.2.2.2.2⟩
  by_cases ht : s1.threw = true
  · rw [if_pos ht]; exact h1
  · rw [if_neg ht]; rw [if_pos h1.1]; exact h1

/-- One `PostUpdate` tick with the RGB camera already resolved never
re-resolves it. -/
lemma postUpdate_rgb_inv (env : Env) (n : List Char) (s : PluginState)
    (h : s.rgb_camera = true) :
    (postUpdate env n s).rgb_camera = true ∧
    (postUpdate env n s).rgbResolveAttempts = s.rgbResolveAttempts ∧
    (postUpdate env n s).rgbCastErrors = s.rgbCastErrors := by
  rw [postUpdate]
  by_cases hsc : s.scene = true
  · rw [if_pos hsc]; exact loadCameras_rgb_inv env n s h
  · rw [if_neg hsc]
    by_cases he : env.engineFound = false
    · rw [if_pos he]; exact ⟨h, rfl, rfl⟩
    · rw [if_neg he]
      by_cases hs : env.sceneFound = false
      · rw [if_pos hs]; exact ⟨h, rfl, rfl⟩
      · rw [if_neg hs]; exact loadCameras_rgb_inv env n _ h

/-! ### Claims -/

/-- C1: the claim predicts that a pixel whose raw depth exceeds the far
clip plane is emitted with `z = +∞`.  Evaluating the embedded callback on
the claim's own scenario (1×1 frame, depth 5.0, far clip 4.0, near clip
1.0, one subscriber, no RGB camera) shows the code instead emits the
finite raw depth `z = 5` — the `+∞` store is overwritten by the `else`
branch of the near-clip test — while `is_dense` is indeed cleared and
`x = y = 0`. -/
theorem c1_far_clip_divergence :
    (onNewDepthFrame 1 1 1 [5] [] 1 4 false).published =
      some { width := 1, height := 1, point_step := 32, row_step := 32,
             is_dense := false, dataLen := 32,
             points := [{ z := ZVal.fin 5, r := 0, g := 0, b := 0 }] } ∧
    (emittedPoint 1 4 1 [] 1 1 0 0 5).z = ZVal.fin 5 ∧
    (emittedPoint 1 4 1 [] 1 1 0 0 5).x = 0 ∧
    (emittedPoint 1 4 1 [] 1 1 0 0 5).y = 0 := by
  refine ⟨by decide, by decide, ?_, ?_⟩
  · show (5 : ℚ) * Real.tan (y_angle 1 (focalLength 1 1) 0) = 0
    simp [y_angle]
  · show (5 : ℚ) * Real.tan (p_angle 1 (focalLength 1 1) 0) = 0
    simp [p_angle]

/-- C2: the claim states `is_dense` is true iff no emitted `z` is `±∞`.
On a 1×1 frame with depth 5.0, near clip 1.0 and far clip 4.0, every
emitted `z` is finite (the far-clip `+∞` store is dead), yet `is_dense`
is `false`: the "if no z is ±infinity then is_dense" direction fails on
the code. -/
theorem c2_is_dense_divergence :
    (onNewDepthFrame 1 1 1 [5] [] 1 4 false).published.map
        (fun m => (m.points.all fun p =>
          !(p.z == ZVal.posInf || p.z == ZVal.negInf), m.is_dense))
      = some (true, false) := by decide

/-- C3: every built-and-published frame with `W > 0`, `H > 0` carries
`width = W`, `height = H`, exactly `W·H` points, and
`row_step = point_step · width`. -/
theorem c3_dimensions (subs W H : ℕ) (depths : List ℚ) (rgbData : List ℕ)
    (near far : ℚ) (hasRgb : Bool) (hs : 0 < subs) (hW : 0 < W) (hH : 0 < H) :
    ∃ m, (onNewDepthFrame subs W H depths rgbData near far hasRgb).published
        = some m ∧
      m.width = W ∧ m.height = H ∧ m.points.length = W * H ∧
      m.row_step = m.point_step * m.width := by
  refine ⟨buildMsg near far rgbData W H depths, ?_, rfl, rfl, ?_, ?_⟩
  · rw [onNewDepthFrame, if_neg (by omega)]
  · show (cloudPoints near far rgbData W H depths).length = W * H
    rw [length_cloudPoints]
    exact Nat.mul_comm H W
  · show W * xyzrgbPointStep = xyzrgbPointStep * W
    exact Nat.mul_comm W xyzrgbPointStep

/-- Witness for C3 at a concrete 2×2 frame. -/
theorem c3_dimensions_witness :
    (0 : ℕ) < 1 ∧ (0 : ℕ) < 2 ∧
    ∃ m, (onNewDepthFrame 1 2 2 [1, 1, 1, 1] [] (1/10) 4 false).published
        = some m ∧
      m.width = 2 ∧ m.height = 2 ∧ m.points.length = 2 * 2 ∧
      m.row_step = m.point_step * m.width :=
  ⟨Nat.zero_lt_one, Nat.zero_lt_two,
    c3_dimensions 1 2 2 [1, 1, 1, 1] [] (1/10) 4 false
      Nat.zero_lt_one Nat.zero_lt_two Nat.zero_lt_two⟩

/-- C4: for every pixel `(i, j)` with raw depth `d`, the emitted `x` is
`d·tan(y_angle(i))` and the emitted `y` is `d·tan(p_angle(j))`, with the
focal length and angles exactly as the specification defines them; and
`x`, `y` do not depend on the clip planes or the colour buffer, i.e. they
come from the raw unclipped depth. -/
theorem c4_backprojection (near far near' far' : ℚ) (hfov : ℝ)
    (rgbData rgbData' : List ℕ) (W H i j : ℕ) (d : ℚ) :
    (emittedPoint near far hfov rgbData W H i j d).x
        = (d : ℝ) * Real.tan (y_angleSpec W (focalLengthSpec W hfov) i) ∧
    (emittedPoint near far hfov rgbData W H i j d).y
        = (d : ℝ) * Real.tan (p_angleSpec H (focalLengthSpec W hfov) j) ∧
    (emittedPoint near far hfov rgbData W H i j d).x
        = (emittedPoint near' far' hfov rgbData' W H i j d).x ∧
    (emittedPoint near far hfov rgbData W H i j d).y
        = (emittedPoint near' far' hfov rgbData' W H i j d).y :=
  ⟨rfl, rfl, rfl, rfl⟩

/-- C7: with zero subscribers or a zero dimension the callback is a pure
early return: nothing is published, no RGB capture happens, no state is
touched. -/
theorem c7_gating (subs W H : ℕ) (depths : List ℚ) (rgbData : List ℕ)
    (near far : ℚ) (hasRgb : Bool) (h : subs = 0 ∨ W = 0 ∨ H = 0) :
    onNewDepthFrame subs W H depths rgbData near far hasRgb
      = { published := none, rgbCaptured := false } := by
  rw [onNewDepthFrame, if_pos (by tauto)]

/-- Witness for C7 with a zero-subscriber invocation. -/
theorem c7_gating_witness :
    ((0 : ℕ) = 0 ∨ (2 : ℕ) = 0 ∨ (2 : ℕ) = 0) ∧
    onNewDepthFrame 0 2 2 [1, 1, 1, 1] [1, 2, 3] (1/10) 4 true
      = { published := none, rgbCaptured := false } :=
  ⟨Or.inl rfl,
    c7_gating 0 2 2 [1, 1, 1, 1] [1, 2, 3] (1/10) 4 true (Or.inl rfl)⟩

/-- C6: colour of the built point at pixel `(i, j)`: with an RGB-sized
buffer (`H·W·3`) the three bytes at linear offset `(j·W+i)·3`; with a
mono-sized buffer (`H·W`) the single byte at `j·W+i` broadcast to all
three channels; otherwise black. -/
theorem c6_color_sampling (near far : ℚ) (rgbData : List ℕ) (W H i j : ℕ)
    (depths : List ℚ) (hi : i < W) (hj : j < H) :
    (rgbData.length = H * W * 3 →
      ((cloudPoints near far rgbData W H depths).getD (j * W + i) default).r
          = rgbData.getD ((j * W + i) * 3) 0 ∧
      ((cloudPoints near far rgbData W H depths).getD (j * W + i) default).g
          = rgbData.getD ((j * W + i) * 3 + 1) 0 ∧
      ((cloudPoints near far rgbData W H depths).getD (j * W + i) default).b
          = rgbData.getD ((j * W + i) * 3 + 2) 0) ∧
    (rgbData.length = H * W →
      ((cloudPoints near far rgbData W H depths).getD (j * W + i) default).r
          = rgbData.getD (j * W + i) 0 ∧
      ((cloudPoints near far rgbData W H depths).getD (j * W + i) default).g
          = rgbData.getD (j * W + i) 0 ∧
      ((cloudPoints near far rgbData W H depths).getD (j * W + i) default).b
          = rgbData.getD (j * W + i) 0) ∧
    (rgbData.length ≠ H * W * 3 → rgbData.length ≠ H * W →
      ((cloudPoints near far rgbData W H depths).getD (j * W + i) default).r = 0 ∧
      ((cloudPoints near far rgbData W H depths).getD (j * W + i) default).g = 0 ∧
      ((cloudPoints near far rgbData W H depths).getD (j * W + i) default).b = 0) := by
  rw [getD_cloudPoints near far rgbData W H i j depths hi hj]
  refine ⟨fun h1 => ?_, fun h2 => ?_, fun h1 h2 => ?_⟩
  · simp only [mkPoint, sampleColor, if_pos h1]
    refine ⟨?_, ?_, ?_⟩ <;>
      exact congrArg (fun n => rgbData.getD n 0) (by ring)
  · have hWH : 0 < H * W := Nat.mul_pos (by omega) (by omega)
    have h1 : rgbData.length ≠ H * W * 3 := by omega
    simp only [mkPoint, sampleColor, if_neg h1, if_pos h2]
    refine ⟨?_, ?_, ?_⟩ <;>
      exact congrArg (fun n => rgbData.getD n 0) (by ring)
  · simp only [mkPoint, sampleColor, if_neg h1, if_neg h2]
    exact ⟨trivial, trivial, trivial⟩

/-- Witness for C6: a 2×1 RGB frame `[10,20,30,40,50,60]` colours pixel
`(1, 0)` with bytes 40, 50, 60 (concrete scenario 4 of the spec). -/
theorem c6_color_sampling_witness :
    ((cloudPoints 1 4 [10, 20, 30, 40, 50, 60] 2 1 [2, 2]).getD
        (0 * 2 + 1) default).r = 40 ∧
    ((cloudPoints 1 4 [10, 20, 30, 40, 50, 60] 2 1 [2, 2]).getD
        (0 * 2 + 1) default).g = 50 ∧
    ((cloudPoints 1 4 [10, 20, 30, 40, 50, 60] 2 1 [2, 2]).getD
        (0 * 2 + 1) default).b = 60 :=
  (c6_color_sampling 1 4 [10, 20, 30, 40, 50, 60] 2 1 1 0 [2, 2]
    (by decide) (by decide)).1 (by decide)

/-- C9: the base pointer `&data[0]` is in bounds exactly when the RGB
buffer is non-empty, and every guarded per-point read offset is strictly
below the tested buffer length. -/
theorem c9_read_bounds (rgbData : List ℕ) (W H i j : ℕ)
    (hi : i < W) (hj : j < H) :
    ((imageSrcRead rgbData).isSome ↔ rgbData ≠ []) ∧
    ∀ o ∈ colorReadOffsets rgbData.length W H i j, o < rgbData.length := by
  constructor
  · cases rgbData with
    | nil => simp [imageSrcRead]
    | cons a t => simp [imageSrcRead]
  · have hrow : j * W + W ≤ H * W := by
      have := Nat.mul_le_mul_right W hj
      rwa [Nat.succ_mul] at this
    intro o ho
    rw [colorReadOffsets] at ho
    split at ho
    · rename_i hL
      simp only [List.mem_cons, List.not_mem_nil, or_false] at ho
      rw [hL]
      rcases ho with rfl | rfl | rfl <;> omega
    · split at ho
      · rename_i hL
        simp only [List.mem_singleton] at ho
        subst ho
        rw [hL]
        omega
      · simp at ho

/-- Witness for C9 at a 1×1 frame with a 3-byte RGB buffer. -/
theorem c9_read_bounds_witness :
    ((imageSrcRead [7, 8, 9]).isSome ↔ ([7, 8, 9] : List ℕ) ≠ []) ∧
    ∀ o ∈ colorReadOffsets ([7, 8, 9] : List ℕ).length 1 1 0 0,
      o < ([7, 8, 9] : List ℕ).length :=
  c9_read_bounds [7, 8, 9] 1 1 0 0 (by decide) (by decide)

/-- C8: camera resolution is lazy and idempotent.  Over any sequence of
further post-update ticks: a cached scene handle stays cached and no
engine or scene lookup is ever performed again; a resolved depth camera
stays resolved, is never re-resolved and the depth-frame callback is never
re-subscribed; a resolved RGB camera stays resolved and is never
re-resolved. -/
theorem c8_lazy_idempotent (envs : List Env) (n : List Char)
    (s : PluginState) :
    (s.scene = true →
      (postUpdates envs n s).scene = true ∧
      (postUpdates envs n s).engineLookups = s.engineLookups ∧
      (postUpdates envs n s).sceneLookups = s.sceneLookups) ∧
    (s.depth_camera = true →
      (postUpdates envs n s).depth_camera = true ∧
      (postUpdates envs n s).subscribeCount = s.subscribeCount ∧
      (postUpdates envs n s).depthResolveAttempts = s.depthResolveAttempts) ∧
    (s.rgb_camera = true →
      (postUpdates envs n s).rgb_camera = true ∧
      (postUpdates envs n s).rgbResolveAttempts = s.rgbResolveAttempts) := by
  induction envs generalizing s with
  | nil => exact ⟨fun h => ⟨h, rfl, rfl⟩, fun h => ⟨h, rfl, rfl⟩,
      fun h => ⟨h, rfl⟩⟩
  | cons e rest ih =>
    refine ⟨fun h => ?_, fun h => ?_, fun h => ?_⟩
    · have hstep := postUpdate_scene_inv e n s h
      have htail := (ih (postUpdate e n s)).1 hstep.1
      exact ⟨htail.1, htail.2.1.trans hstep.2.1, htail.2.2.trans hstep.2.2⟩
    · have hstep := postUpdate_depth_inv e n s h
      have htail := (ih (postUpdate e n s)).2.1 hstep.1
      exact ⟨htail.1, htail.2.1.trans hstep.2.1, htail.2.2.trans hstep.2.2.1⟩
    · have hstep := postUpdate_rgb_inv e n s h
      have htail := (ih (postUpdate e n s)).2.2 hstep.1
      exact ⟨htail.1, htail.2.trans hstep.2.1⟩

/-- A tick environment for the C8 witness: nothing resolvable. -/
def emptyEnv : Env :=
  { engineFound := false, sceneFound := false, sensorAt := fun _ => none }

/-- A fully resolved plugin state for the C8 witness. -/
def resolvedState : PluginState :=
  { scene := true, depth_camera := true, rgb_camera := true,
    engineLookups := 1, sceneLookups := 1,
    depthResolveAttempts := 2, rgbResolveAttempts := 3,
    depthCastErrors := 0, rgbCastErrors := 0,
    subscribeCount := 1, threw := false }

/-- Witness for C8 over two concrete further ticks from a fully resolved
state. -/
theorem c8_lazy_idempotent_witness :
    ((postUpdates [emptyEnv, emptyEnv] [] resolvedState).scene = true ∧
      (postUpdates [emptyEnv, emptyEnv] [] resolvedState).engineLookups
        = resolvedState.engineLookups ∧
      (postUpdates [emptyEnv, emptyEnv] [] resolvedState).sceneLookups
        = resolvedState.sceneLookups) ∧
    ((postUpdates [emptyEnv, emptyEnv] [] resolvedState).depth_camera = true ∧
      (postUpdates [emptyEnv, emptyEnv] [] resolvedState).subscribeCount
        = resolvedState.subscribeCount ∧
      (postUpdates [emptyEnv, emptyEnv] [] resolvedState).depthResolveAttempts
        = resolvedState.depthResolveAttempts) ∧
    ((postUpdates [emptyEnv, emptyEnv] [] resolvedState).rgb_camera = true ∧
      (postUpdates [emptyEnv, emptyEnv] [] resolvedState).rgbResolveAttempts
        = resolvedState.rgbResolveAttempts) := by
  have h := c8_lazy_idempotent [emptyEnv, emptyEnv] [] resolvedState
  exact ⟨h.1 rfl, h.2.1 rfl, h.2.2 rfl⟩

/-- An environment whose scene holds, at every name, a sensor that is
neither a depth camera nor an RGB camera (the wrong-capability case). -/
def wrongCapsEnv : Env :=
  { engineFound := true, sceneFound := true,
    sensorAt := fun _ => some { isDepthCamera := false, isRgbCamera := false } }

/-- A scoped name (`m::cam`) for the C5 counterexample. -/
def scopedNameCex : List Char := ['m', ':', ':', 'c', 'a', 'm']

/-- C5 counterexample: the claim says a found-but-uncastable sensor is
abandoned with no further resolution attempts.  Running two post-update
ticks from the initial state against a scene that returns an uncastable
sensor shows the cast-failure error is logged on *both* ticks and the
sensor is looked up on *both* ticks (two resolution attempts, two logs,
handle still null) — resolution is retried, not abandoned. -/
theorem c5_counterexample :
    (postUpdates [wrongCapsEnv, wrongCapsEnv] scopedNameCex initState).depthCastErrors
        = 2 ∧
    (postUpdates [wrongCapsEnv, wrongCapsEnv] scopedNameCex initState).depthResolveAttempts
        = 2 ∧
    (postUpdates [wrongCapsEnv, wrongCapsEnv] scopedNameCex initState).depth_camera
        = false := by decide

/-- C5 amended: when the named sensor is found but the cast to a depth
camera fails, the plugin logs an error and leaves the handle null on that
tick — and therefore re-attempts resolution (and logs the error again) on
every subsequent tick on which the same conditions hold, for the life of
the plugin. -/
theorem c5_wrong_cast_retried (env : Env) (n : List Char) (s : PluginState)
    (nm : List Char) (caps : SensorCaps)
    (hscene : s.scene = true) (hdc : s.depth_camera = false)
    (hname : depthLookupName n = Except.ok nm)
    (hfound : env.sensorAt nm = some caps)
    (hcast : caps.isDepthCamera = false) :
    (postUpdate env n s).depth_camera = false ∧
    (postUpdate env n s).depthResolveAttempts = s.depthResolveAttempts + 1 ∧
    (postUpdate env n s).depthCastErrors = s.depthCastErrors + 1 := by
  have hload : loadDepthCamera env n s
      = { s with depthResolveAttempts := s.depthResolveAttempts + 1,
                 depthCastErrors := s.depthCastErrors + 1 } := by
    unfold loadDepthCamera
    rw [hname]
    simp [hfound, hcast]
  have hs1 : (if s.depth_camera = true then s else loadDepthCamera env n s)
      = loadDepthCamera env n s := if_neg (by simp [hdc])
  rw [postUpdate, if_pos hscene, loadCameras, hs1, hload]
  set t : PluginState :=
    { s with depthResolveAttempts := s.depthResolveAttempts + 1,
             depthCastErrors := s.depthCastErrors + 1 } with htdef
  have hrf := loadRgbCamera_frame env n t
  by_cases ht : t.threw = true
  · rw [if_pos ht]; exact ⟨hdc, rfl, rfl⟩
  · rw [if_neg ht]
    by_cases hr : t.rgb_camera = true
    · rw [if_pos hr]; exact ⟨hdc, rfl, rfl⟩
    · rw [if_neg hr]
      exact ⟨hrf.2.2.2.1.trans hdc, hrf.2.2.2.2.1, hrf.2.2.2.2.2.1⟩

/-- A plugin state with the scene resolved and both cameras still
unresolved, for the C5 witness. -/
def sceneOnlyState : PluginState := { initState with scene := true }

/-- Witness for the amended C5 on a concrete wrong-capability scene. -/
theorem c5_wrong_cast_retried_witness :
    (postUpdate wrongCapsEnv scopedNameCex sceneOnlyState).depth_camera = false ∧
    (postUpdate wrongCapsEnv scopedNameCex sceneOnlyState).depthResolveAttempts
        = sceneOnlyState.depthResolveAttempts + 1 ∧
    (postUpdate wrongCapsEnv scopedNameCex sceneOnlyState).depthCastErrors
        = sceneOnlyState.depthCastErrors + 1 :=
  c5_wrong_cast_retried wrongCapsEnv scopedNameCex sceneOnlyState
    ['c', 'a', 'm', '_', 'd', 'e', 'p', 't', 'h']
    { isDepthCamera := false, isRgbCamera := false }
    rfl rfl (by decide) rfl rfl

/-- C10 counterexample: the claim says that for a scoped name with no
`"::"` the lookup name is the name minus its first character.  For the
empty scoped name (which contains no `"::"`), `substr(1)` on a 0-length
string instead throws `out_of_range`: no lookup name is produced at
all. -/
theorem c10_counterexample :
    depthLookupName [] = Except.error () ∧
    rgbLookupName [] = Except.error () ∧
    depthLookupName [] ≠ Except.ok (List.drop 1 [] ++ depthSuffix) ∧
    rgbLookupName [] ≠ Except.ok (List.drop 1 []) := by decide

/-- C10 amended: for every *non-empty* scoped name `s` (of `size_t`
length), the depth lookup name is the substring after the first `"::"`
with `"_depth"` appended and the RGB lookup name is that same substring;
when `s` contains no `"::"`, `find` returns `npos`, `npos + 2` wraps to
index 1, and the lookup names are `s` minus its first character (the
empty scoped name instead makes `substr` throw `out_of_range`). -/
theorem c10_name_derivation (s : List Char) (hne : s ≠ [])
    (hlen : s.length < 2 ^ 64) :
    (∀ k, k + 2 ≤ s.length →
      sepColons.isPrefixOf (s.drop k) = true →
      (∀ m, m < k → sepColons.isPrefixOf (s.drop m) = false) →
      depthLookupName s = Except.ok (s.drop (k + 2) ++ depthSuffix) ∧
      rgbLookupName s = Except.ok (s.drop (k + 2))) ∧
    ((∀ m, sepColons.isPrefixOf (s.drop m) = false) →
      depthLookupName s = Except.ok (s.drop 1 ++ depthSuffix) ∧
      rgbLookupName s = Except.ok (s.drop 1)) := by
  constructor
  · intro k hk hpre hmin
    have hfind : cppFind s sepColons = k :=
      cppFind_found s sepColons k (by omega) hpre hmin
    have hmod : (cppFind s sepColons + 2) % 2 ^ 64 = k + 2 := by
      rw [hfind]
      exact Nat.mod_eq_of_lt (by omega)
    have hsub : cppSubstr s ((cppFind s sepColons + 2) % 2 ^ 64)
        = Except.ok (s.drop (k + 2)) := by
      rw [hmod, cppSubstr, if_pos hk]
    constructor
    · unfold depthLookupName
      rw [hsub]
    · unfold rgbLookupName
      exact hsub
  · intro hall
    have hfind : cppFind s sepColons = NPOS :=
      cppFind_none s sepColons (by decide) hall
    have hmod : (cppFind s sepColons + 2) % 2 ^ 64 = 1 := by
      rw [hfind]
      exact npos_wrap
    have hlen1 : 1 ≤ s.length := by
      cases s with
      | nil => exact absurd rfl hne
      | cons a t => simp
    have hsub : cppSubstr s ((cppFind s sepColons + 2) % 2 ^ 64)
        = Except.ok (s.drop 1) := by
      rw [hmod, cppSubstr, if_pos hlen1]
    constructor
    · unfold depthLookupName
      rw [hsub]
    · unfold rgbLookupName
      exact hsub

/-- Witness for the amended C10: `a::b` maps to `b_depth` / `b`, and the
separator-free `ab` maps to `b_depth` / `b` (first character dropped). -/
theorem c10_name_derivation_witness :
    (depthLookupName ['a', ':', ':', 'b']
        = Except.ok (List.drop 3 ['a', ':', ':', 'b'] ++ depthSuffix) ∧
      rgbLookupName ['a', ':', ':', 'b']
        = Except.ok (List.drop 3 ['a', ':', ':', 'b'])) ∧
    (depthLookupName ['a', 'b']
        = Except.ok (List.drop 1 ['a', 'b'] ++ depthSuffix) ∧
      rgbLookupName ['a', 'b'] = Except.ok (List.drop 1 ['a', 'b'])) := by
  constructor
  · exact (c10_name_derivation ['a', ':', ':', 'b'] (by decide) (by norm_num)).1
      1 (by decide) (by decide) (by decide)
  · refine (c10_name_derivation ['a', 'b'] (by decide) (by norm_num)).2 ?_
    intro m
    match m with
    | 0 => rfl
    | 1 => rfl
    | n + 2 =>
      rw [List.drop_eq_nil_of_le (by simp)]
      rfl
